import Mathlib

/-!
# Verification of the latency-arb engine's Executor and Strategy

Shallow embedding of `src/execution/executor.js` (first revision in the file,
the one with partial-fill accounting, `_finalizeClose`, and the safety-timeout
fall-through) and of the `Strategy._evaluate` suppression guards from
`src/engine/calibration.js`.  Prices, quantities and money are modelled as
exact rationals (`ℚ`); wall-clock instants as `ℕ` milliseconds.  Exchange
I/O (order placement, fill polling, book fetches) is passed in as explicit
outcome parameters, mirroring the values the awaited calls return in the
source.  The `RiskManager` (`src/engine/risk.js`) is not present under
`src/`; it is modelled from the spec (§4.2) where needed.
-/

namespace LatencyArb

/-- Trade direction, `signal.direction ∈ {BUY_YES, BUY_NO}`. -/
inductive Direction where
  | BUY_YES
  | BUY_NO
deriving DecidableEq, Repr

/-- Trade lifecycle status strings `"OPEN" | "CLOSING" | "CLOSED"`. -/
inductive Status where
  | OPEN
  | CLOSING
  | CLOSED
deriving DecidableEq, Repr

/-- Normalized fill-result status from `_waitForFill`. -/
inductive FillStatus where
  | MATCHED
  | PARTIAL
  | CANCELLED
  | TIMEOUT
deriving DecidableEq, Repr

/-- `{ status, avgPrice, filledQty }` as returned by `_waitForFill`.
`avgPrice` may be `null` (`none`). -/
structure FillResult where
  status : FillStatus
  avgPrice : Option ℚ
  filledQty : ℚ
deriving DecidableEq, Repr

/-- The signal fields the Executor reads (src/engine/calibration.js
`_evaluate` builds the full object; only these members are consumed by the
executor code under verification). `spread?` models the optional
`signal._spread`. -/
structure Signal where
  label : String
  direction : Direction
  tokenId : String
  entryPrice : ℚ
  size : ℚ
  modelProb : ℚ
  contractPrice : ℚ
  isCertainty : Bool
  expiresAt : ℕ
  availableLiquidity : ℚ
  hoursToExpiry : ℚ
  spread? : Option ℚ
deriving DecidableEq, Repr

/-- The mutable trade record built in `Executor.execute` (executor.js lines
430–445).  `initialSize` is an `Option` because trades rebuilt by
`restorePositions` never receive the field (it is `undefined` in JS).
`orderStatus` is `trade.order.status` (`"SIMULATED"` short-circuits the live
exchange paths).  `realizedPnl` is `none` until the first partial exit
(`trade.realizedPnl ?? 0` in the source). -/
structure Trade where
  id : String
  signal : Signal
  orderStatus : String
  entryPrice : ℚ
  tokenQty : ℚ
  size : ℚ
  initialSize : Option ℚ
  direction : Direction
  status : Status
  openTime : ℕ
  executionLatency : ℕ
  currentMid : Option ℚ
  realizedPnl : Option ℚ
  pnl : Option ℚ
  exitPrice : Option ℚ
  exitTime : ℕ
  exitReason : Option String
  holdTime : ℕ
  estimatedExit : Bool
deriving DecidableEq, Repr

/-- Modelled from the spec: `src/engine/risk.js` is not in the provided
tree (only its tests and callers are).  Spec §4.2: an open-position ledger
entry `{side, size, entryPrice}`. -/
structure RiskPos where
  side : Direction
  size : ℚ
  entryPrice : ℚ
deriving DecidableEq, Repr

/-- Modelled from the spec: the RiskManager accounting state (§4.2) —
bankroll, dailyPnl, peakBankroll and the `openPositions` map (assoc list
keyed by trade id). -/
structure RiskState where
  bankroll : ℚ
  dailyPnl : ℚ
  peakBankroll : ℚ
  openPositions : List (String × RiskPos)
deriving DecidableEq, Repr

/-- Modelled from the spec: `openPosition({id, side, size, entryPrice})` —
"require bankroll ≥ size; bankroll -= size; insert into openPositions". -/
def RiskState.openPosition (r : RiskState) (id : String) (p : RiskPos) : RiskState :=
  if p.size ≤ r.bankroll then
    { r with bankroll := r.bankroll - p.size
             openPositions := r.openPositions ++ [(id, p)] }
  else r

/-- Modelled from the spec: `closePosition(id, pnl)` — "bankroll += pos.size
+ pnl; dailyPnl += pnl; update peak; delete entry. No-op if id not
present". -/
def RiskState.closePosition (r : RiskState) (id : String) (pnl : ℚ) : RiskState :=
  match r.openPositions.lookup id with
  | none => r
  | some pos =>
      let bankroll := r.bankroll + pos.size + pnl
      { r with bankroll := bankroll
               dailyPnl := r.dailyPnl + pnl
               peakBankroll := max r.peakBankroll bankroll
               openPositions := r.openPositions.filter (fun e => e.1 ≠ id) }

/-- Modelled from the spec: `applyPartialClose(id, {realizedNotional,
realizedPnl})` — "pos.size -= realizedNotional; bankroll += realizedNotional
+ realizedPnl; dailyPnl += realizedPnl; update peak". -/
def RiskState.applyPartialClose (r : RiskState) (id : String)
    (realizedNotional realizedPnl : ℚ) : RiskState :=
  match r.openPositions.lookup id with
  | none => r
  | some _ =>
      let bankroll := r.bankroll + realizedNotional + realizedPnl
      { r with bankroll := bankroll
               dailyPnl := r.dailyPnl + realizedPnl
               peakBankroll := max r.peakBankroll bankroll
               openPositions := r.openPositions.map (fun e =>
                 if e.1 = id then (e.1, { e.2 with size := e.2.size - realizedNotional }) else e) }

/-- One record of the NDJSON close audit log written by `logTrade({event:
"close", ...})` inside `_finalizeClose` (executor.js lines 181–198). -/
structure CloseRecord where
  id : String
  label : String
  direction : Direction
  entryPrice : ℚ
  exitPrice : ℚ
  tokenQty : ℚ
  size : ℚ
  pnl : ℚ
  pnlPct : ℚ
  reason : String
  holdMs : ℕ
  openTime : ℕ
  exitTime : ℕ
  estimatedExit : Bool
deriving DecidableEq, Repr

/-- Counters `fillRateStats = {attempted, filled, partial, cancelled,
failed}` (executor.js line 146). -/
structure FillRateStats where
  attempted : ℕ
  filled : ℕ
  partialFills : ℕ
  cancelled : ℕ
  failed : ℕ
deriving DecidableEq, Repr

/-- The Executor-owned mutable state.  `pnlPushes` records the values pushed
into `pnlStats` (so `pnlStats.n = pnlPushes.length`); `closeLog` the "close"
audit records (one per `logTrade` close event, which is also when the
`onTradeEvent` close callback fires); `alerts` the `sendAlert` messages. -/
structure ExecState where
  openOrders : List Trade
  risk : RiskState
  stats : FillRateStats
  pnlPushes : List ℚ
  tradeHistory : List Trade
  maxHistory : ℕ
  executionLatencies : List ℕ
  closeLog : List CloseRecord
  alerts : List String
deriving DecidableEq, Repr

/-- Replace the stored trade with the given id by its mutated value (JS
mutates the shared object in place; the map entry and the local variable
are the same object). -/
def setTradeInList (l : List Trade) (t : Trade) : List Trade :=
  l.map (fun x => if x.id = t.id then t else x)

/-- `trade.initialSize > 0 ? totalPnl / trade.initialSize : 0` — in JS an
absent `initialSize` is `undefined`, and `undefined > 0` is `false`. -/
def closePnlPct (initialSize : Option ℚ) (totalPnl : ℚ) : ℚ :=
  match initialSize with
  | some s => if 0 < s then totalPnl / s else 0
  | none => 0

/-- `Executor._finalizeClose(trade, {reason, exitPrice, pnl, estimated})`
(executor.js lines 157–202).  NOTE: the source has no entrance guard on
`trade.status`; the body runs unconditionally and always returns `true`.
Returns the mutated trade and the new executor state. -/
def finalizeClose (s : ExecState) (t : Trade) (reason : String) (exitPrice pnl : ℚ)
    (estimated : Bool) (now : ℕ) : Trade × ExecState :=
  let totalPnl := (t.realizedPnl.getD 0) + pnl
  let t' := { t with status := Status.CLOSED
                     pnl := some totalPnl
                     exitPrice := some exitPrice
                     exitTime := now
                     exitReason := some reason
                     holdTime := now - t.openTime
                     estimatedExit := estimated }
  let hist := s.tradeHistory ++ [t']
  let closeRec : CloseRecord :=
    { id := t.id
      label := t.signal.label
      direction := t.direction
      entryPrice := t.entryPrice
      exitPrice := exitPrice
      tokenQty := t.tokenQty
      size := t.size
      pnl := totalPnl
      pnlPct := closePnlPct t.initialSize totalPnl
      reason := reason
      holdMs := now - t.openTime
      openTime := t.openTime
      exitTime := now
      estimatedExit := estimated }
  ⟨t',
   { s with openOrders := s.openOrders.filter (fun x => x.id ≠ t.id)
            risk := s.risk.closePosition t.id pnl
            pnlPushes := s.pnlPushes ++ [totalPnl]
            tradeHistory := if s.maxHistory < hist.length then hist.drop 1 else hist
            closeLog := s.closeLog ++ [closeRec] }⟩

/-- The exchange interaction observed by one `_exitPosition` attempt: either
`placeOrder` threw, or it succeeded and the subsequent `_waitForFill`
resolved to the given `FillResult`. -/
inductive ExitOutcome where
  | placeThrows
  | fill (f : FillResult)
deriving DecidableEq, Repr

/-- Threshold `1e-8` from `trade.tokenQty <= 1e-8 || trade.size <= 1e-8`
(executor.js line 649). -/
def dustEps : ℚ := 1 / 100000000

/-- `Executor._exitPosition(trade, reason, markPrice)` (executor.js lines
581–682), with the awaited exchange outcome passed as `io`.  Returns
`(committedClose, mutated trade, new state)` — `true` iff a close was
finalized. -/
def exitPosition (s : ExecState) (t : Trade) (reason : String) (markPrice : ℚ)
    (io : ExitOutcome) (now : ℕ) : Bool × Trade × ExecState :=
  if t.status = Status.CLOSING ∨ t.status = Status.CLOSED then (false, t, s)
  else if ¬ s.openOrders.any (fun x => x.id = t.id) then (false, t, s)
  else
    let t1 := { t with status := Status.CLOSING }
    let s1 := { s with openOrders := setTradeInList s.openOrders t1 }
    if t1.orderStatus = "SIMULATED" then
      -- Dry-run: no exchange interaction; book at markPrice.
      let pnl := (markPrice - t1.entryPrice) * t1.tokenQty
      (true, finalizeClose s1 t1 reason markPrice pnl false now)
    else
      match io with
      | ExitOutcome.placeThrows =>
          -- `placeOrder` threw: alert, revert status to OPEN, return false.
          let t2 := { t1 with status := Status.OPEN }
          (false, t2,
           { s1 with openOrders := setTradeInList s1.openOrders t2
                     alerts := s1.alerts ++ ["Exit order failed for " ++ t1.id] })
      | ExitOutcome.fill f =>
          if f.status = FillStatus.PARTIAL ∧ 0 < f.filledQty then
            -- Book the partial realization, keep the remainder open.
            let exitPx := f.avgPrice.getD markPrice
            let filledQty := min f.filledQty t1.tokenQty
            let realizedPnl := (exitPx - t1.entryPrice) * filledQty
            let realizedNotional := filledQty * t1.entryPrice
            let t2 := { t1 with
              realizedPnl := some ((t1.realizedPnl.getD 0) + realizedPnl)
              tokenQty := max 0 (t1.tokenQty - filledQty)
              size := max 0 (t1.size - realizedNotional) }
            let s2 := { s1 with
              openOrders := setTradeInList s1.openOrders t2
              risk := s1.risk.applyPartialClose t2.id realizedNotional realizedPnl }
            if t2.tokenQty ≤ dustEps ∨ t2.size ≤ dustEps then
              (true, finalizeClose s2 t2 (reason ++ "_PARTIAL_EXHAUSTED") exitPx 0 false now)
            else
              let t3 := { t2 with status := Status.OPEN }
              (false, t3, { s2 with openOrders := setTradeInList s2.openOrders t3 })
          else if f.status ≠ FillStatus.MATCHED then
            -- Unconfirmed sell: cancel it, revert to OPEN, retry next cycle.
            let t2 := { t1 with status := Status.OPEN }
            (false, t2, { s1 with openOrders := setTradeInList s1.openOrders t2 })
          else
            let actualExitPrice := f.avgPrice.getD markPrice
            let pnl := (actualExitPrice - t1.entryPrice) * t1.tokenQty
            (true, finalizeClose s1 t1 reason actualExitPrice pnl false now)

/-- The safety-timeout callback body (executor.js lines 548–571).
`bookMid?` is the result of the `fetchOrderbook` try (a `some` replaces the
`trade.currentMid ?? trade.entryPrice` fallback); `io` is the exchange
outcome of the final `_exitPosition` attempt. -/
def safetyTimeoutBody (s : ExecState) (t : Trade) (bookMid? : Option ℚ)
    (io : ExitOutcome) (now : ℕ) : Trade × ExecState :=
  if ¬ s.openOrders.any (fun x => x.id = t.id) then (t, s)
  else
    let currentMid := bookMid?.getD (t.currentMid.getD t.entryPrice)
    let (exited, t1, s1) := exitPosition s t "FORCE_EXIT" currentMid io now
    if ¬ exited ∧ s1.openOrders.any (fun x => x.id = t1.id)
        ∧ t1.status ≠ Status.CLOSING then
      -- Sell order still unconfirmed: close the risk state at mark and alert.
      let pnl := (currentMid - t1.entryPrice) * t1.tokenQty
      let s2 := { s1 with alerts := s1.alerts ++
        ["Exit unconfirmed for " ++ t1.id ++ " - closed risk at mark, verify on exchange"] }
      finalizeClose s2 t1 "FORCE_EXIT_UNCONFIRMED" currentMid pnl true now
    else (t1, s1)

/-- Config values read at the top of `_monitorPosition` (executor.js lines
490–493): `maxHoldMs = MAX_HOLD_MS`, `profitTarget =
CONFIG.risk.profitTargetPct`, `stopLoss = -CONFIG.risk.stopLossPct`. -/
structure MonitorConfig where
  maxHoldMs : ℕ
  profitTargetPct : ℚ
  stopLossPct : ℚ
deriving DecidableEq, Repr

/-- `trade.direction === "BUY_YES" ? trade.signal.modelProb : 1 -
trade.signal.modelProb` (executor.js line 538). -/
def monitorTargetPrice (direction : Direction) (modelProb : ℚ) : ℚ :=
  if direction = Direction.BUY_YES then modelProb else 1 - modelProb

/-- The exit decision of one periodic monitor tick (executor.js lines
531–539).  The source is a sequence of independent `if` statements that each
overwrite `exitReason`, so a later matching condition replaces the reason
set by an earlier one.  Returns `(shouldExit, exitReason)`. -/
def monitorExitDecision (cfg : MonitorConfig) (age : ℕ) (pnlPct currentMid : ℚ)
    (direction : Direction) (modelProb : ℚ) : Bool × String :=
  let d0 : Bool × String := (false, "")
  let d1 := if cfg.maxHoldMs ≤ age then (true, "MAX_HOLD_TIME") else d0
  let d2 := if cfg.profitTargetPct ≤ pnlPct then (true, "PROFIT_TARGET") else d1
  let d3 := if pnlPct ≤ -cfg.stopLossPct then (true, "STOP_LOSS") else d2
  let targetPrice := monitorTargetPrice direction modelProb
  if |currentMid - targetPrice| < 2/100 then (true, "EDGE_COLLAPSED") else d3

/-- The exit decision as the spec sentence words it: check MAX_HOLD_TIME,
PROFIT_TARGET, STOP_LOSS, EDGE_COLLAPSED and (for isCertainty trades)
CERTAINTY_EXPIRY in that order, the FIRST matching reason winning.  Written
from the spec's words for comparison with `monitorExitDecision`. -/
def monitorExitDecisionSpecFirstWins (cfg : MonitorConfig) (age : ℕ)
    (pnlPct currentMid : ℚ) (direction : Direction) (modelProb : ℚ)
    (isCertainty : Bool) (now expiresAt : ℕ) : Bool × String :=
  if cfg.maxHoldMs ≤ age then (true, "MAX_HOLD_TIME")
  else if cfg.profitTargetPct ≤ pnlPct then (true, "PROFIT_TARGET")
  else if pnlPct ≤ -cfg.stopLossPct then (true, "STOP_LOSS")
  else if |currentMid - monitorTargetPrice direction modelProb| < 2/100 then
    (true, "EDGE_COLLAPSED")
  else if isCertainty ∧ expiresAt ≤ now then (true, "CERTAINTY_EXPIRY")
  else (false, "")

/-- An order strategy `{ type: "take"|"maker", price }` chosen by
`_selectOrderStrategy`. -/
inductive OrderKind where
  | take
  | maker
deriving DecidableEq, Repr

structure OrderStrategy where
  kind : OrderKind
  price : ℚ
deriving DecidableEq, Repr

/-- `Executor._selectOrderStrategy(signal)` (executor.js lines 277–300).
Wide spread (≥ 3c) and more than 120 s to expiry: post maker one cent inside
from the contract mid, clamped to [0.01, 0.99]; otherwise take at the
signal's entry price.  (The source also computes unused locals `spread`,
`bestBid`, `bestAsk`; they do not affect the result.) -/
def selectOrderStrategy (sig : Signal) : OrderStrategy :=
  let secsToExpiry := sig.hoursToExpiry * 3600
  let actualSpread := sig.spread?.getD (|sig.entryPrice - sig.contractPrice| * 2)
  if 3/100 ≤ actualSpread ∧ 120 < secsToExpiry then
    let makerPrice := if sig.direction = Direction.BUY_YES
      then sig.contractPrice + 1/100
      else sig.contractPrice - 1/100
    { kind := OrderKind.maker, price := max (1/100) (min (99/100) makerPrice) }
  else { kind := OrderKind.take, price := sig.entryPrice }

/-- What the entry exchange interaction produced: `placeOrder` threw; or the
order came back `SIMULATED` (dry-run); or the live fill-confirmation phase
(including the maker reprice / taker-fallback loop, which only re-places and
re-polls) ended with the given final `FillResult`. -/
inductive EntryOutcome where
  | placeThrows
  | simulated
  | live (f : FillResult)
deriving DecidableEq, Repr

/-- The tail of `Executor.execute` after a confirmed non-zero fill
(executor.js lines 422–476): build the Trade with `size = initialSize =
tokenQty × entryPrice`, insert into `openOrders`, call
`risk.openPosition`, and return the trade. -/
def openConfirmedTrade (s1 : ExecState) (sig : Signal) (orderId : String)
    (orderStatus : String) (actualEntryPrice actualTokenQty : ℚ)
    (stats' : FillRateStats) (latency now : ℕ) : Option Trade × ExecState :=
  let actualDollarSize := actualTokenQty * actualEntryPrice
  let trade : Trade :=
    { id := orderId
      signal := sig
      orderStatus := orderStatus
      entryPrice := actualEntryPrice
      tokenQty := actualTokenQty
      size := actualDollarSize
      initialSize := some actualDollarSize
      direction := sig.direction
      status := Status.OPEN
      openTime := now
      executionLatency := latency
      currentMid := none
      realizedPnl := none
      pnl := none
      exitPrice := none
      exitTime := 0
      exitReason := none
      holdTime := 0
      estimatedExit := false }
  (some trade,
   { s1 with
       stats := stats'
       openOrders := s1.openOrders ++ [trade]
       risk := s1.risk.openPosition orderId
         { side := sig.direction, size := actualDollarSize,
           entryPrice := actualEntryPrice } })

/-- `Executor.execute(signal)` (executor.js lines 303–486), with the awaited
exchange outcome passed as `io`, the exchange-assigned order id as
`orderId`, and the measured latency as `latency`.  `attempted` is bumped
unconditionally at entry (line 305); a throwing `placeOrder` reaches the
catch (`failed++`, null, line 478); otherwise the latency is recorded and
the final fill (the live fill-confirmation phase — including the maker
reprice / taker-fallback loop, which only re-places and re-polls — or the
dry-run short-circuit) is classified as in lines 390–419: MATCHED opens at
`avgPrice ?? entryPrice` for `filledQty` (`filled++`); PARTIAL with
positive quantity opens the filled portion (`partial++`); anything else
cancels best-effort and aborts (`cancelled++`, null) without touching risk
state. -/
def execute (s : ExecState) (sig : Signal) (orderId : String) (io : EntryOutcome)
    (latency : ℕ) (now : ℕ) : Option Trade × ExecState :=
  let s0 := { s with stats := { s.stats with attempted := s.stats.attempted + 1 } }
  let strat := selectOrderStrategy sig
  let entryPrice := strat.price
  let requestedQty := sig.size / entryPrice
  match io with
  | EntryOutcome.placeThrows =>
      -- catch branch (lines 478–485): failed++, return null.
      (none, { s0 with stats := { s0.stats with failed := s0.stats.failed + 1 } })
  | EntryOutcome.simulated =>
      let lats := s0.executionLatencies ++ [latency]
      let s1 := { s0 with executionLatencies :=
                    if 100 < lats.length then lats.drop 1 else lats }
      openConfirmedTrade s1 sig orderId "SIMULATED" entryPrice requestedQty
        { s1.stats with filled := s1.stats.filled + 1 } latency now
  | EntryOutcome.live f =>
      let lats := s0.executionLatencies ++ [latency]
      let s1 := { s0 with executionLatencies :=
                    if 100 < lats.length then lats.drop 1 else lats }
      if f.status = FillStatus.MATCHED then
        openConfirmedTrade s1 sig orderId "OPEN" (f.avgPrice.getD entryPrice)
          f.filledQty { s1.stats with filled := s1.stats.filled + 1 } latency now
      else if f.status = FillStatus.PARTIAL ∧ 0 < f.filledQty then
        openConfirmedTrade s1 sig orderId "OPEN" (f.avgPrice.getD entryPrice)
          f.filledQty { s1.stats with partialFills := s1.stats.partialFills + 1 }
          latency now
      else
        -- TIMEOUT/CANCELLED with zero fills: cancel best-effort, cancelled++,
        -- return null without touching risk state (lines 405–411).
        (none, { s1 with stats := { s1.stats with cancelled := s1.stats.cancelled + 1 } })

/-- The shared shape of the per-trade bodies of the `cancelAllOrders` and
`cancelOrdersForLabel` loops (executor.js lines 691–700 and 711–727):
best-effort exchange cancel (errors swallowed, no state effect), then
finalize at mark (`currentMid ?? entryPrice`) with the loop's reason and
estimated=true. -/
def closeAtMarkStep (reason : String) (now : ℕ) (s : ExecState) (t : Trade) : ExecState :=
  let markPrice := t.currentMid.getD t.entryPrice
  let pnl := (markPrice - t.entryPrice) * t.tokenQty
  (finalizeClose s t reason markPrice pnl true now).2

/-- `Executor.cancelAllOrders()` (executor.js lines 685–705).  The whole
body is inside one `try`: if `poly.cancelAll()` throws, the catch only logs
and nothing else runs.  Otherwise every trade in the `openOrders` snapshot
is finalized at mark with reason SHUTDOWN, estimated=true. -/
def cancelAllOrders (s : ExecState) (cancelAllThrows : Bool) (now : ℕ) : ExecState :=
  if cancelAllThrows then s
  else s.openOrders.foldl (closeAtMarkStep "SHUTDOWN" now) s

/-- `Executor.cancelOrdersForLabel(label)` (executor.js lines 707–729):
filter the open trades whose `signal.label` matches, return early when none
match, otherwise cancel and finalize each match with ROTATION_CANCEL. -/
def cancelOrdersForLabel (s : ExecState) (label : String) (now : ℕ) : ExecState :=
  let matched := s.openOrders.filter (fun t => t.signal.label = label)
  if matched.isEmpty then s
  else matched.foldl (closeAtMarkStep "ROTATION_CANCEL" now) s

/-- One entry of the crash-recovery snapshot produced by `getOpenSnapshot`
(executor.js lines 732–743).  `tokenQty?` is optional for back-compat with
snapshots saved before the field existed. -/
structure Snapshot where
  id : String
  direction : Direction
  entryPrice : ℚ
  tokenQty? : Option ℚ
  size : ℚ
  openTime : ℕ
  signal : Signal
  orderStatus : String
deriving DecidableEq, Repr

/-- `MAX_HOLD_MS = 300_000` (executor.js line 13). -/
def MAX_HOLD_MS : ℕ := 300000

/-- The trade reconstructed from a snapshot by `restorePositions`
(executor.js lines 762–776).  The object literal there has NO `initialSize`
member, so the restored trade's `initialSize` is `undefined` (`none`). -/
def restoreTrade (snap : Snapshot) : Trade :=
  { id := snap.id
    signal := snap.signal
    orderStatus := snap.orderStatus
    entryPrice := snap.entryPrice
    tokenQty := snap.tokenQty?.getD (snap.size / snap.entryPrice)
    size := snap.size
    initialSize := none
    direction := snap.direction
    status := Status.OPEN
    openTime := snap.openTime
    executionLatency := 0
    currentMid := none
    realizedPnl := none
    pnl := none
    exitPrice := none
    exitTime := 0
    exitReason := none
    holdTime := 0
    estimatedExit := false }

/-- `Executor.restorePositions(snapshots)` (executor.js lines 745–786): a
snapshot older than `MAX_HOLD_MS + 60000` is dropped (its risk entry
reconciled via `closePosition(id, 0)`); otherwise the trade is rebuilt and
inserted into `openOrders`. -/
def restorePositions (s : ExecState) (snaps : List Snapshot) (now : ℕ) : ExecState :=
  snaps.foldl (fun st snap =>
    let age := now - snap.openTime
    if MAX_HOLD_MS + 60000 < age then
      { st with risk := st.risk.closePosition snap.id 0 }
    else
      { st with openOrders := st.openOrders ++ [restoreTrade snap] }) s

-- ─── Strategy (src/engine/calibration.js, second section) ─────────────────

/-- The per-market Strategy state read by `_evaluate` (calibration.js lines
154–196).  Numeric members that JS initialises to `null` are `Option`s;
`marketWindowStart` and `marketEndDate` are epoch milliseconds. -/
structure StrategyState where
  spotPrice : Option ℚ
  contractMid : Option ℚ
  marketSetCount : ℕ
  marketWindowStart : Option ℕ
  marketOpenStrike : Option ℚ
  marketEndDate : Option ℕ
deriving DecidableEq, Repr

/-- `Strategy._estimateHoursToExpiry()` (calibration.js lines 384–395).
When `marketEndDate` is unset the source falls back to the end of the UTC
day; that boundary is supplied as `endOfDayMs`. -/
def estimateHoursToExpiry (st : StrategyState) (now endOfDayMs : ℕ) : ℚ :=
  match st.marketEndDate with
  | some e => max (((e : ℚ) - (now : ℚ)) / 3600000) (1/120)
  | none => max (((endOfDayMs : ℚ) - (now : ℚ)) / 3600000) (1/2)

/-- The suppression-guard prefix of `Strategy._evaluate()` (calibration.js
lines 273–293).  All JS guards are faithfully falsy-aware: `!this.spotPrice`
and `!this.contractMid` and `!this.marketOpenStrike` also fire on `0`, and
`this.marketWindowStart && now < this.marketWindowStart` skips the
pre-window guard when `marketWindowStart` is unset or `0`.  Everything after
the guards (model probability, edge, sizing, the signal callback) is the
continuation `rest`, taking the computed `hoursToExpiry`; the theorem below
holds for every such continuation. -/
def evaluateGuarded (st : StrategyState) (now endOfDayMs : ℕ)
    (rest : ℚ → Option Signal) : Option Signal :=
  match st.spotPrice, st.contractMid with
  | some sp, some cm =>
    if sp = 0 ∨ cm = 0 then none
    else if st.marketSetCount ≤ 1 then none
    else if (match st.marketWindowStart with
             | some w => decide (w ≠ 0) && decide (now < w)
             | none => false) then none
    else
      match st.marketOpenStrike with
      | none => none
      | some strike =>
        if strike = 0 then none
        else
          let hoursToExpiry := estimateHoursToExpiry st now endOfDayMs
          if hoursToExpiry < 1/60 then none
          else rest hoursToExpiry
  | _, _ => none

-- ─── Concrete fixtures (mirroring tests/executor.test.js helpers) ─────────

/-- The `makeSignal()` fixture of tests/executor.test.js. -/
def sampleSignal : Signal :=
  { label := "BTC/5m"
    direction := Direction.BUY_YES
    tokenId := "token-yes-abc123"
    entryPrice := 11/20
    size := 11/2
    modelProb := 13/20
    contractPrice := 11/20
    isCertainty := false
    expiresAt := 0
    availableLiquidity := 200
    hoursToExpiry := 1/20
    spread? := none }

/-- The `makeOpenTrade()` fixture of tests/executor.test.js: tokenQty=10 at
entryPrice=0.55 (size 5.50), status OPEN, live order, a 0.60 mark. -/
def sampleTrade : Trade :=
  { id := "trade-1"
    signal := sampleSignal
    orderStatus := "OPEN"
    entryPrice := 11/20
    tokenQty := 10
    size := 11/2
    initialSize := some (11/2)
    direction := Direction.BUY_YES
    status := Status.OPEN
    openTime := 0
    executionLatency := 10
    currentMid := some (3/5)
    realizedPnl := none
    pnl := none
    exitPrice := none
    exitTime := 0
    exitReason := none
    holdTime := 0
    estimatedExit := false }

/-- Risk state holding exactly `sampleTrade`'s position. -/
def sampleRisk : RiskState :=
  { bankroll := 1000
    dailyPnl := 0
    peakBankroll := 1000
    openPositions :=
      [("trade-1", { side := Direction.BUY_YES, size := 11/2, entryPrice := 11/20 })] }

/-- Executor state with the single open `sampleTrade`. -/
def sampleState : ExecState :=
  { openOrders := [sampleTrade]
    risk := sampleRisk
    stats := ⟨0, 0, 0, 0, 0⟩
    pnlPushes := []
    tradeHistory := []
    maxHistory := 500
    executionLatencies := []
    closeLog := []
    alerts := [] }

/-- Executor state with no open trades (fresh executor). -/
def freshState : ExecState :=
  { openOrders := []
    risk := { bankroll := 1000, dailyPnl := 0, peakBankroll := 1000, openPositions := [] }
    stats := ⟨0, 0, 0, 0, 0⟩
    pnlPushes := []
    tradeHistory := []
    maxHistory := 500
    executionLatencies := []
    closeLog := []
    alerts := [] }

-- ─── C1 ───────────────────────────────────────────────────────────────────

/-- C1.  The claim states that `_finalizeClose` is guarded at its entrance
by the CLOSED status so that repeated invocation cannot double-commit.  The
source (executor.js lines 157–202) has no such guard: its body runs
unconditionally.  Calling `_finalizeClose` a second time on the trade it
already closed (reachable, e.g., when `cancelAllOrders` finalizes a trade
whose in-flight `_exitPosition` later resumes and finalizes again) pushes a
second value into `pnlStats`, appends a second entry to `tradeHistory`, and
emits a second close record — a double commit. -/
theorem finalizeClose_no_entrance_guard_double_commits :
    (finalizeClose sampleState sampleTrade "PROFIT_TARGET" (3/5) (1/2) false 60000).1.status
        = Status.CLOSED ∧
    (let r1 := finalizeClose sampleState sampleTrade "PROFIT_TARGET" (3/5) (1/2) false 60000
     let r2 := finalizeClose r1.2 r1.1 "PROFIT_TARGET" (3/5) (1/2) false 61000
     r2.2.pnlPushes.length = 2 ∧
     r2.2.tradeHistory.length = 2 ∧
     r2.2.closeLog.length = 2) := by
  constructor
  · rfl
  · refine ⟨rfl, rfl, rfl⟩

-- ─── C6 ───────────────────────────────────────────────────────────────────

/-- C6.  Scenario S2, partial then full close with cumulative P&L: starting
from `sampleTrade` (tokenQty=10 at entryPrice=0.55), a first exit resolving
PARTIAL with filledQty=4 at avgPrice=0.62 books realizedPnl=0.28 and leaves
tokenQty=6, size=3.30 with the trade kept open; a second exit resolving
MATCHED with filledQty=6 at avgPrice=0.60 books a 0.30 segment and
finalizes with pnl = 0.28 + 0.30 = 0.58; exactly one value is pushed into
`pnlStats` and the risk position is removed. -/
theorem partial_then_full_close_cumulative_pnl :
    (let r1 := exitPosition sampleState sampleTrade "EDGE_COLLAPSED" (62/100)
                 (ExitOutcome.fill ⟨FillStatus.PARTIAL, some (62/100), 4⟩) 60000
     let r2 := exitPosition r1.2.2 r1.2.1 "PROFIT_TARGET" (3/5)
                 (ExitOutcome.fill ⟨FillStatus.MATCHED, some (3/5), 6⟩) 120000
     r1.1 = false ∧
     r1.2.1.realizedPnl = some (7/25) ∧
     r1.2.1.tokenQty = 6 ∧
     r1.2.1.size = 33/10 ∧
     r1.2.1.status = Status.OPEN ∧
     r2.1 = true ∧
     r2.2.1.status = Status.CLOSED ∧
     r2.2.1.pnl = some (29/50) ∧
     r2.2.2.pnlPushes = [29/50] ∧
     r2.2.2.risk.openPositions.lookup "trade-1" = none ∧
     r2.2.2.openOrders = []) := by
  simp only [exitPosition, sampleState, sampleTrade, sampleSignal, sampleRisk,
    finalizeClose, setTradeInList, dustEps, RiskState.applyPartialClose,
    RiskState.closePosition, closePnlPct, List.lookup]
  simp only [reduceCtorEq, or_self, String.reduceEq, reduceIte, List.filter,
    List.map, Option.getD]
  norm_num [List.lookup]
  simp only [reduceCtorEq, or_self, String.reduceEq, reduceIte]
  norm_num [List.lookup]

-- ─── C3 ───────────────────────────────────────────────────────────────────

/-- Last-match reformulation of the monitor tick's decision: because each
`if` in executor.js lines 534–539 overwrites `exitReason`, the effective
priority is the reverse of source order. -/
def monitorExitDecisionLastWins (cfg : MonitorConfig) (age : ℕ)
    (pnlPct currentMid : ℚ) (direction : Direction) (modelProb : ℚ) : Bool × String :=
  if |currentMid - monitorTargetPrice direction modelProb| < 2/100 then
    (true, "EDGE_COLLAPSED")
  else if pnlPct ≤ -cfg.stopLossPct then (true, "STOP_LOSS")
  else if cfg.profitTargetPct ≤ pnlPct then (true, "PROFIT_TARGET")
  else if cfg.maxHoldMs ≤ age then (true, "MAX_HOLD_TIME")
  else (false, "")

/-- Config fixture matching the test env: profit target 3 %, stop loss 15 %,
max hold 5 min. -/
def monCfg : MonitorConfig :=
  { maxHoldMs := 300000, profitTargetPct := 3/100, stopLossPct := 15/100 }

/-- C3 counterexample.  With age = MAX_HOLD_MS and pnlPct = 5 % both the
MAX_HOLD_TIME and PROFIT_TARGET conditions hold; the code's decision is
PROFIT_TARGET (the later `if` overwrote the reason), while the claim's
first-match rule yields MAX_HOLD_TIME.  Moreover an isCertainty trade past
its expiry with no other condition met produces no exit at all in the code
(this Executor revision has no CERTAINTY_EXPIRY check, executor.js lines
531–539), while the claim's rule exits with CERTAINTY_EXPIRY. -/
theorem monitorExitDecision_first_match_counterexample :
    monitorExitDecision monCfg 300000 (5/100) (1/2) Direction.BUY_YES (9/10)
        = (true, "PROFIT_TARGET") ∧
    monitorExitDecisionSpecFirstWins monCfg 300000 (5/100) (1/2) Direction.BUY_YES (9/10)
        false 0 0 = (true, "MAX_HOLD_TIME") ∧
    monitorExitDecision monCfg 0 0 (1/2) Direction.BUY_YES (9/10) = (false, "") ∧
    monitorExitDecisionSpecFirstWins monCfg 0 0 (1/2) Direction.BUY_YES (9/10)
        true 100 50 = (true, "CERTAINTY_EXPIRY") := by
  refine ⟨?_, ?_, ?_, ?_⟩ <;>
    norm_num [monitorExitDecision, monitorExitDecisionSpecFirstWins,
      monitorTargetPrice, monCfg, abs_eq_max_neg, max_def]

/-- C3 amended.  In every monitor tick the code checks MAX_HOLD_TIME,
PROFIT_TARGET, STOP_LOSS and EDGE_COLLAPSED in source order with each later
match overwriting the reason, so the LAST matching reason is the one passed
to `_exitPosition`; there is no CERTAINTY_EXPIRY check in this revision. -/
theorem monitorExitDecision_last_match_wins (cfg : MonitorConfig) (age : ℕ)
    (pnlPct currentMid : ℚ) (direction : Direction) (modelProb : ℚ) :
    monitorExitDecision cfg age pnlPct currentMid direction modelProb =
      monitorExitDecisionLastWins cfg age pnlPct currentMid direction modelProb := by
  simp only [monitorExitDecision, monitorExitDecisionLastWins]

-- ─── C9 ───────────────────────────────────────────────────────────────────

/-- The close-audit record appended when a trade is finalized at mark by the
emergency/rotation loops; it depends only on the trade and the clock. -/
def closeAtMarkRecord (reason : String) (now : ℕ) (t : Trade) : CloseRecord :=
  let markPrice := t.currentMid.getD t.entryPrice
  let pnl := (markPrice - t.entryPrice) * t.tokenQty
  let totalPnl := (t.realizedPnl.getD 0) + pnl
  { id := t.id
    label := t.signal.label
    direction := t.direction
    entryPrice := t.entryPrice
    exitPrice := markPrice
    tokenQty := t.tokenQty
    size := t.size
    pnl := totalPnl
    pnlPct := closePnlPct t.initialSize totalPnl
    reason := reason
    holdMs := now - t.openTime
    openTime := t.openTime
    exitTime := now
    estimatedExit := true }

theorem closeAtMarkStep_openOrders (reason : String) (now : ℕ) (s : ExecState) (t : Trade) :
    (closeAtMarkStep reason now s t).openOrders
      = s.openOrders.filter (fun x => x.id ≠ t.id) := rfl

theorem closeAtMarkStep_closeLog (reason : String) (now : ℕ) (s : ExecState) (t : Trade) :
    (closeAtMarkStep reason now s t).closeLog
      = s.closeLog ++ [closeAtMarkRecord reason now t] := rfl

/-- Folding the finalize-at-mark step over a list of trades deletes exactly
their ids from `openOrders`. -/
theorem foldl_closeAtMark_openOrders (reason : String) (now : ℕ) :
    ∀ (M : List Trade) (s : ExecState),
      (M.foldl (closeAtMarkStep reason now) s).openOrders
        = s.openOrders.filter (fun x => M.all (fun t => decide (x.id ≠ t.id))) := by
  intro M
  induction M with
  | nil => intro s; simp
  | cons t M ih =>
      intro s
      simp only [List.foldl_cons, ih, closeAtMarkStep_openOrders, List.filter_filter]
      refine List.filter_congr ?_
      intro x _
      simp [List.all_cons, Bool.and_comm]

/-- Folding the finalize-at-mark step appends exactly one close record per
trade, in order. -/
theorem foldl_closeAtMark_closeLog (reason : String) (now : ℕ) :
    ∀ (M : List Trade) (s : ExecState),
      (M.foldl (closeAtMarkStep reason now) s).closeLog
        = s.closeLog ++ M.map (closeAtMarkRecord reason now) := by
  intro M
  induction M with
  | nil => intro s; simp
  | cons t M ih =>
      intro s
      simp [List.foldl_cons, ih, closeAtMarkStep_closeLog]

/-- C9.  If `poly.cancelAll()` throws inside `cancelAllOrders`, the catch
only logs: the state is returned unchanged — no trade finalized, risk,
pnl stats and trade history untouched.  The mark-to-market SHUTDOWN
finalization (which empties `openOrders` and appends one estimated SHUTDOWN
close record per open trade) happens only on the non-throwing path. -/
theorem cancelAllOrders_swallows_throw :
    (∀ (s : ExecState) (now : ℕ), cancelAllOrders s true now = s) ∧
    (∀ (s : ExecState) (now : ℕ),
      (cancelAllOrders s false now).openOrders = [] ∧
      (cancelAllOrders s false now).closeLog
        = s.closeLog ++ s.openOrders.map (closeAtMarkRecord "SHUTDOWN" now) ∧
      ∀ r ∈ (cancelAllOrders s false now).closeLog,
        r ∈ s.closeLog ∨ (r.reason = "SHUTDOWN" ∧ r.estimatedExit = true)) := by
  constructor
  · intro s now; rfl
  · intro s now
    refine ⟨?_, ?_, ?_⟩
    · show (s.openOrders.foldl (closeAtMarkStep "SHUTDOWN" now) s).openOrders = []
      rw [foldl_closeAtMark_openOrders]
      rw [List.filter_eq_nil_iff]
      intro x hx h
      have hxx := List.all_eq_true.mp h x hx
      simp at hxx
    · show (s.openOrders.foldl (closeAtMarkStep "SHUTDOWN" now) s).closeLog = _
      exact foldl_closeAtMark_closeLog "SHUTDOWN" now s.openOrders s
    · intro r hr
      have h : (cancelAllOrders s false now).closeLog
          = s.closeLog ++ s.openOrders.map (closeAtMarkRecord "SHUTDOWN" now) :=
        foldl_closeAtMark_closeLog "SHUTDOWN" now s.openOrders s
      rw [h, List.mem_append] at hr
      rcases hr with hl | hm
      · exact Or.inl hl
      · rcases List.mem_map.mp hm with ⟨t, _, rfl⟩
        exact Or.inr ⟨rfl, rfl⟩

-- ─── C10 ──────────────────────────────────────────────────────────────────

/-- C10.  A snapshot young enough to be restored is rebuilt by
`restorePositions` into a trade whose `initialSize` is absent (the object
literal at executor.js lines 762–776 has no such member), so whenever that
trade is later finalized, the close record's `pnlPct` falls back to 0 (the
`trade.initialSize > 0` test fails on `undefined`) — for every final-segment
pnl, including non-zero ones, while the record's `pnl` itself is that
non-zero total. -/
theorem restorePositions_drops_initialSize_pnlPct_zero
    (snap : Snapshot) (s : ExecState) (now : ℕ)
    (hage : ¬ (MAX_HOLD_MS + 60000 < now - snap.openTime)) :
    restorePositions s [snap] now
        = { s with openOrders := s.openOrders ++ [restoreTrade snap] } ∧
    (restoreTrade snap).initialSize = none ∧
    (∀ (s2 : ExecState) (reason : String) (exitPrice pnl : ℚ) (estim : Bool)
        (now2 : ℕ) (r : CloseRecord),
      (finalizeClose s2 (restoreTrade snap) reason exitPrice pnl estim now2).2.closeLog
          = s2.closeLog ++ [r] →
      r.pnlPct = 0 ∧ r.pnl = pnl) := by
  refine ⟨?_, rfl, ?_⟩
  · simp [restorePositions, hage]
  · intro s2 reason exitPrice pnl estim now2 r hlog
    simp only [finalizeClose] at hlog
    have hr := List.append_cancel_left hlog
    have hr' : _ = r := (List.cons.injEq _ _ _ _ ▸ hr).1
    subst hr'
    constructor
    · rfl
    · show (restoreTrade snap).realizedPnl.getD 0 + pnl = pnl
      simp [restoreTrade]

/-- Concrete restored-position snapshot fixture. -/
def snapFixture : Snapshot :=
  { id := "restored-1"
    direction := Direction.BUY_YES
    entryPrice := 11/20
    tokenQty? := some 10
    size := 11/2
    openTime := 0
    signal := sampleSignal
    orderStatus := "RESTORED" }

/-- C10 witness: the concrete `snapFixture` restored at now = 1000 is within
the staleness window; its rebuilt trade carries no `initialSize`, and
finalizing it with a non-zero final pnl of 0.5 writes a close record whose
`pnlPct` is 0 while its `pnl` is 0.5. -/
theorem restorePositions_drops_initialSize_pnlPct_zero_witness :
    (¬ (MAX_HOLD_MS + 60000 < 1000 - snapFixture.openTime)) ∧
    (restoreTrade snapFixture).initialSize = none ∧
    (finalizeClose freshState (restoreTrade snapFixture) "FORCE_EXIT" (3/5) (1/2)
        false 2000).2.closeLog.map CloseRecord.pnlPct = [0] ∧
    (finalizeClose freshState (restoreTrade snapFixture) "FORCE_EXIT" (3/5) (1/2)
        false 2000).2.closeLog.map CloseRecord.pnl = [1/2] := by
  have h := restorePositions_drops_initialSize_pnlPct_zero snapFixture freshState 1000
    (by decide)
  obtain ⟨r, hr⟩ : ∃ r, (finalizeClose freshState (restoreTrade snapFixture)
      "FORCE_EXIT" (3/5) (1/2) false 2000).2.closeLog = freshState.closeLog ++ [r] :=
    ⟨_, rfl⟩
  have hrec := h.2.2 freshState "FORCE_EXIT" (3/5) (1/2) false 2000 r hr
  refine ⟨by decide, h.2.1, ?_, ?_⟩
  · rw [hr]
    show List.map CloseRecord.pnlPct ([] ++ [r]) = [0]
    simp [hrec.1]
  · rw [hr]
    show List.map CloseRecord.pnl ([] ++ [r]) = [1/2]
    simp [hrec.2]

-- ─── C2 ───────────────────────────────────────────────────────────────────

theorem trade_set_status_open_self (t : Trade) (h : t.status = Status.OPEN) :
    { t with status := Status.OPEN } = t := by
  cases t; simp_all

theorem setTradeInList_setTradeInList (l : List Trade) (u v : Trade) (h : u.id = v.id) :
    setTradeInList (setTradeInList l u) v = setTradeInList l v := by
  unfold setTradeInList
  rw [List.map_map]
  refine List.map_congr_left ?_
  intro x _
  by_cases hx : x.id = u.id
  · simp [Function.comp, hx, h ▸ hx, h]
  · simp [Function.comp, hx]

theorem setTradeInList_any_id (l : List Trade) (u : Trade) (i : String) :
    ((setTradeInList l u).any (fun x => x.id = i)) = (l.any (fun x => x.id = i)) := by
  induction l with
  | nil => rfl
  | cons x xs ih =>
      simp only [setTradeInList, List.map_cons, List.any_cons] at ih ⊢
      by_cases hx : x.id = u.id
      · rw [if_pos hx, ih, ← hx]
      · rw [if_neg hx, ih]

theorem filter_ne_any_id (l : List Trade) (i : String) :
    ((l.filter (fun x => x.id ≠ i)).any (fun x => x.id = i)) = false := by
  induction l with
  | nil => rfl
  | cons x xs ih => by_cases hx : x.id = i <;> simp [List.filter_cons, hx, ih]

/-- `_exitPosition` on an OPEN live trade whose sell could not be confirmed
(fill neither MATCHED nor PARTIAL-with-quantity): the trade reverts to OPEN
and nothing but the in-place list write happens (executor.js lines 663–668). -/
theorem exitPosition_unconfirmed (s : ExecState) (t : Trade) (reason : String)
    (markPrice : ℚ) (f : FillResult) (now : ℕ)
    (hopen : t.status = Status.OPEN)
    (hmem : s.openOrders.any (fun x => x.id = t.id) = true)
    (hlive : t.orderStatus ≠ "SIMULATED")
    (hnm : f.status ≠ FillStatus.MATCHED)
    (hnp : ¬ (f.status = FillStatus.PARTIAL ∧ 0 < f.filledQty)) :
    exitPosition s t reason markPrice (ExitOutcome.fill f) now
      = (false, t, { s with openOrders := setTradeInList s.openOrders t }) := by
  unfold exitPosition
  rw [hopen]
  simp only [reduceCtorEq, or_self, if_false, hmem, not_true, ite_false]
  simp only [hlive, ite_false, if_neg hnp, if_pos hnm, reduceIte]
  rw [trade_set_status_open_self t hopen,
      setTradeInList_setTradeInList s.openOrders { t with status := Status.CLOSING } t rfl]

/-- The trade stuck in CLOSING when the safety timer fires. -/
def closingTrade : Trade := { sampleTrade with status := Status.CLOSING }

/-- Executor state whose only open trade is in-flight CLOSING. -/
def closingState : ExecState := { sampleState with openOrders := [closingTrade] }

/-- C2 counterexample.  When the safety timeout fires while a first exit is
in flight (trade.status = CLOSING) and stuck, the claim says the safety
path still closes the risk state at mark (finalize with
FORCE_EXIT_UNCONFIRMED).  In the code the fall-through is guarded by
`trade.status !== "CLOSING"` (executor.js line 558): the body returns with
the state bit-for-bit unchanged — no close record, no alert, no pnl push,
the trade still OPEN in `openOrders` with status CLOSING. -/
theorem safetyTimeout_skips_inflight_closing :
    (safetyTimeoutBody closingState closingTrade (some (3/5))
        (ExitOutcome.fill ⟨FillStatus.TIMEOUT, none, 0⟩) 305000).2 = closingState ∧
    (safetyTimeoutBody closingState closingTrade (some (3/5))
        (ExitOutcome.fill ⟨FillStatus.TIMEOUT, none, 0⟩) 305000).1 = closingTrade ∧
    closingState.closeLog = [] ∧ closingState.alerts = [] ∧
    closingState.pnlPushes = [] ∧ closingTrade.status = Status.CLOSING ∧
    closingState.openOrders = [closingTrade] := by
  refine ⟨rfl, rfl, rfl, rfl, rfl, rfl, rfl⟩

/-- C2 amended.  When the safety timeout fires for a trade still in
`openOrders` whose final `_exitPosition(trade, "FORCE_EXIT", mid)` attempt
does not commit (live order, fill unconfirmed), and the trade is NOT
mid-CLOSING after that attempt, the safety path unilaterally closes the
risk state at mark: pnl = (currentMid − entryPrice) × tokenQty, one
operator alert, and `_finalizeClose` with reason FORCE_EXIT_UNCONFIRMED and
estimated = true; the trade leaves `openOrders`.  (When a first exit is in
flight — status CLOSING — the fall-through is skipped instead.) -/
theorem safety_fallthrough_closes_at_mark (s : ExecState) (t : Trade) (mid : ℚ)
    (f : FillResult) (now : ℕ)
    (hopen : t.status = Status.OPEN)
    (hmem : s.openOrders.any (fun x => x.id = t.id) = true)
    (hlive : t.orderStatus ≠ "SIMULATED")
    (hnm : f.status ≠ FillStatus.MATCHED)
    (hnp : ¬ (f.status = FillStatus.PARTIAL ∧ 0 < f.filledQty)) :
    (safetyTimeoutBody s t (some mid) (ExitOutcome.fill f) now).1.status = Status.CLOSED ∧
    (safetyTimeoutBody s t (some mid) (ExitOutcome.fill f) now).1.exitReason
        = some "FORCE_EXIT_UNCONFIRMED" ∧
    (safetyTimeoutBody s t (some mid) (ExitOutcome.fill f) now).1.estimatedExit = true ∧
    (safetyTimeoutBody s t (some mid) (ExitOutcome.fill f) now).1.pnl
        = some ((t.realizedPnl.getD 0) + (mid - t.entryPrice) * t.tokenQty) ∧
    (safetyTimeoutBody s t (some mid) (ExitOutcome.fill f) now).2.alerts
        = s.alerts ++
          ["Exit unconfirmed for " ++ t.id ++ " - closed risk at mark, verify on exchange"] ∧
    (safetyTimeoutBody s t (some mid) (ExitOutcome.fill f) now).2.pnlPushes
        = s.pnlPushes ++ [(t.realizedPnl.getD 0) + (mid - t.entryPrice) * t.tokenQty] ∧
    ((safetyTimeoutBody s t (some mid) (ExitOutcome.fill f) now).2.openOrders.any
        (fun x => x.id = t.id)) = false := by
  have hE := exitPosition_unconfirmed s t "FORCE_EXIT" mid f now hopen hmem hlive hnm hnp
  unfold safetyTimeoutBody
  simp only [hmem, not_true, ite_false, Option.getD_some, Bool.true_eq_false,
    reduceIte, hE]
  simp only [setTradeInList_any_id, hmem, hopen, reduceCtorEq, ne_eq,
    not_false_iff, and_true, not_false_eq_true, true_and, if_true,
    Bool.false_eq_true, finalizeClose, reduceIte, ite_true]
  exact filter_ne_any_id _ t.id

/-- C2 amended witness: the concrete `sampleTrade` (OPEN, live, in
`sampleState`) with a TIMEOUT fill at mark 0.62: the safety fall-through
finalizes it at pnl = (0.62 − 0.55)·10 = 0.70 with
FORCE_EXIT_UNCONFIRMED / estimated and removes it from openOrders. -/
theorem safety_fallthrough_closes_at_mark_witness :
    (sampleTrade.status = Status.OPEN ∧
     sampleState.openOrders.any (fun x => x.id = sampleTrade.id) = true ∧
     sampleTrade.orderStatus ≠ "SIMULATED") ∧
    ((safetyTimeoutBody sampleState sampleTrade (some (62/100))
        (ExitOutcome.fill ⟨FillStatus.TIMEOUT, none, 0⟩) 305000).1.status = Status.CLOSED ∧
     (safetyTimeoutBody sampleState sampleTrade (some (62/100))
        (ExitOutcome.fill ⟨FillStatus.TIMEOUT, none, 0⟩) 305000).1.exitReason
          = some "FORCE_EXIT_UNCONFIRMED" ∧
     (safetyTimeoutBody sampleState sampleTrade (some (62/100))
        (ExitOutcome.fill ⟨FillStatus.TIMEOUT, none, 0⟩) 305000).1.estimatedExit = true) := by
  refine ⟨⟨rfl, rfl, by decide⟩, ?_⟩
  have h := safety_fallthrough_closes_at_mark sampleState sampleTrade (62/100)
    ⟨FillStatus.TIMEOUT, none, 0⟩ 305000 rfl rfl (by decide) (by decide) (by decide)
  exact ⟨h.1, h.2.1, h.2.2.1⟩

-- ─── C4 ───────────────────────────────────────────────────────────────────

/-- C4 counterexample.  On a zero-fill TIMEOUT entry, `execute` does return
null without inserting a trade or touching risk, and bumps `cancelled` —
but the claim's "only the cancelled counter of fillRateStats is
incremented" is false: `fillRateStats.attempted` is incremented too (it is
bumped unconditionally at the top of `execute`, executor.js line 305). -/
theorem execute_zero_fill_increments_attempted_too :
    (execute freshState sampleSignal "ord-1"
        (EntryOutcome.live ⟨FillStatus.TIMEOUT, none, 0⟩) 5 1000).1 = none ∧
    (execute freshState sampleSignal "ord-1"
        (EntryOutcome.live ⟨FillStatus.TIMEOUT, none, 0⟩) 5 1000).2.stats.cancelled = 1 ∧
    (execute freshState sampleSignal "ord-1"
        (EntryOutcome.live ⟨FillStatus.TIMEOUT, none, 0⟩) 5 1000).2.stats.attempted
      ≠ freshState.stats.attempted := by
  refine ⟨rfl, rfl, by decide⟩

/-- C4 amended.  Entry is atomic with respect to risk state: when the final
fill is TIMEOUT or CANCELLED with zero filled quantity, `execute` returns
null, inserts nothing into `openOrders`, never calls `risk.openPosition`
(risk state identical), and of `fillRateStats` increments exactly the
unconditional `attempted` counter and `cancelled` (latency is still
recorded, as the order was placed); when `placeOrder` throws, `execute`
returns null and increments exactly `attempted` and `failed`, leaving every
other field of the state unchanged. -/
theorem execute_abort_paths_touch_no_risk (s : ExecState) (sig : Signal)
    (oid : String) (latency now : ℕ) (f : FillResult)
    (hnm : f.status ≠ FillStatus.MATCHED)
    (hnp : ¬ (f.status = FillStatus.PARTIAL ∧ 0 < f.filledQty)) :
    execute s sig oid (EntryOutcome.live f) latency now
      = (none,
         { s with
             stats := { s.stats with attempted := s.stats.attempted + 1
                                     cancelled := s.stats.cancelled + 1 }
             executionLatencies :=
               if 100 < (s.executionLatencies ++ [latency]).length
               then (s.executionLatencies ++ [latency]).drop 1
               else s.executionLatencies ++ [latency] }) ∧
    execute s sig oid EntryOutcome.placeThrows latency now
      = (none,
         { s with
             stats := { s.stats with attempted := s.stats.attempted + 1
                                     failed := s.stats.failed + 1 } }) := by
  constructor
  · simp only [execute, hnm, hnp, ite_false, reduceIte, if_neg hnm, if_neg hnp]
  · rfl

/-- C4 amended witness: concrete zero-fill TIMEOUT on the fresh executor —
returns null, `openOrders` stays empty, the risk ledger and bankroll are
untouched, and only `attempted` and `cancelled` move. -/
theorem execute_abort_paths_touch_no_risk_witness :
    ((⟨FillStatus.TIMEOUT, none, 0⟩ : FillResult).status ≠ FillStatus.MATCHED ∧
     ¬ ((⟨FillStatus.TIMEOUT, none, 0⟩ : FillResult).status = FillStatus.PARTIAL ∧
        0 < (⟨FillStatus.TIMEOUT, none, 0⟩ : FillResult).filledQty)) ∧
    execute freshState sampleSignal "ord-1"
        (EntryOutcome.live ⟨FillStatus.TIMEOUT, none, 0⟩) 5 1000
      = (none,
         { freshState with
             stats := { freshState.stats with
                          attempted := freshState.stats.attempted + 1
                          cancelled := freshState.stats.cancelled + 1 }
             executionLatencies :=
               if 100 < (freshState.executionLatencies ++ [5]).length
               then (freshState.executionLatencies ++ [5]).drop 1
               else freshState.executionLatencies ++ [5] }) := by
  refine ⟨⟨by decide, by decide⟩, ?_⟩
  exact (execute_abort_paths_touch_no_risk freshState sampleSignal "ord-1" 5 1000
    ⟨FillStatus.TIMEOUT, none, 0⟩ (by decide) (by decide)).1

-- ─── C5 ───────────────────────────────────────────────────────────────────

/-- Arithmetic core of the partial-exit mutation (executor.js lines
616–618): with a nonnegative entry price and quantity, clamping the sold
quantity at the held quantity keeps the remainder nonnegative and keeps
`size = tokenQty × entryPrice` exactly. -/
theorem partial_mutation_invariant (tq e fq : ℚ) (he : 0 ≤ e) (hq : 0 ≤ tq) :
    0 ≤ max 0 (tq - min fq tq) ∧
    max 0 (tq * e - (min fq tq) * e) = (max 0 (tq - min fq tq)) * e := by
  have h1 : min fq tq ≤ tq := min_le_right _ _
  have h2 : 0 ≤ tq - min fq tq := by linarith
  refine ⟨le_max_left 0 _, ?_⟩
  rw [← sub_mul, max_eq_right h2, max_eq_right (mul_nonneg h2 he)]

/-- The price chosen by `_selectOrderStrategy` is nonnegative whenever the
signal's entry price is (the maker price is clamped at 0.01 from below). -/
theorem selectOrderStrategy_price_nonneg (sig : Signal) (hp : 0 ≤ sig.entryPrice) :
    0 ≤ (selectOrderStrategy sig).price := by
  unfold selectOrderStrategy
  by_cases hc : 3/100 ≤ sig.spread?.getD (|sig.entryPrice - sig.contractPrice| * 2)
      ∧ 120 < sig.hoursToExpiry * 3600
  · simp only [hc, if_true, ite_true]
    exact le_max_of_le_left (by norm_num)
  · simp only [hc, if_false, ite_false]
    exact hp

/-- C5.  For every trade the Executor produces or mutates, `tokenQty ≥ 0`
and `size = tokenQty × entryPrice` hold exactly (in ℚ the 1e-6 float
tolerance is not needed), and `initialSize` is never mutated after the
position opens: (1) a live-fill entry (with the nonnegative filled quantity
`_waitForFill` guarantees by clamping) constructs the trade with `size =
initialSize = tokenQty × entryPrice`; (2) so does a dry-run entry; (3)
every `_exitPosition` outcome — including the partial-exit mutation —
preserves the invariant and leaves `initialSize` untouched
(`_finalizeClose` does not touch these fields either). -/
theorem trade_size_invariant :
    (∀ (s : ExecState) (sig : Signal) (oid : String) (latency now : ℕ)
        (f : FillResult) (t' : Trade),
      0 ≤ f.filledQty →
      (execute s sig oid (EntryOutcome.live f) latency now).1 = some t' →
      0 ≤ t'.tokenQty ∧ t'.size = t'.tokenQty * t'.entryPrice ∧
        t'.initialSize = some t'.size) ∧
    (∀ (s : ExecState) (sig : Signal) (oid : String) (latency now : ℕ)
        (t' : Trade),
      0 ≤ sig.size → 0 ≤ sig.entryPrice →
      (execute s sig oid EntryOutcome.simulated latency now).1 = some t' →
      0 ≤ t'.tokenQty ∧ t'.size = t'.tokenQty * t'.entryPrice ∧
        t'.initialSize = some t'.size) ∧
    (∀ (s : ExecState) (t : Trade) (reason : String) (markPrice : ℚ)
        (io : ExitOutcome) (now : ℕ),
      0 ≤ t.entryPrice → 0 ≤ t.tokenQty → t.size = t.tokenQty * t.entryPrice →
      0 ≤ (exitPosition s t reason markPrice io now).2.1.tokenQty ∧
      (exitPosition s t reason markPrice io now).2.1.size
        = (exitPosition s t reason markPrice io now).2.1.tokenQty
          * (exitPosition s t reason markPrice io now).2.1.entryPrice ∧
      (exitPosition s t reason markPrice io now).2.1.initialSize
        = t.initialSize) := by
  refine ⟨?_, ?_, ?_⟩
  · intro s sig oid latency now f t' hf h
    simp only [execute, openConfirmedTrade] at h
    split at h
    · rw [Option.some.injEq] at h
      subst h
      exact ⟨hf, rfl, rfl⟩
    · split at h
      · rw [Option.some.injEq] at h
        subst h
        exact ⟨hf, rfl, rfl⟩
      · exact absurd h (by simp)
  · intro s sig oid latency now t' hs hp h
    simp only [execute, openConfirmedTrade, Option.some.injEq] at h
    subst h
    refine ⟨?_, rfl, rfl⟩
    show 0 ≤ sig.size / (selectOrderStrategy sig).price
    exact div_nonneg hs (selectOrderStrategy_price_nonneg sig hp)
  · intro s t reason markPrice io now he hq hsz
    cases io with
    | placeThrows =>
        simp only [exitPosition]
        split
        · exact ⟨hq, hsz, rfl⟩
        · split
          · exact ⟨hq, hsz, rfl⟩
          · split
            · exact ⟨hq, hsz, rfl⟩
            · exact ⟨hq, hsz, rfl⟩
    | fill f =>
        simp only [exitPosition]
        split
        · exact ⟨hq, hsz, rfl⟩
        · split
          · exact ⟨hq, hsz, rfl⟩
          · split
            · exact ⟨hq, hsz, rfl⟩
            · split
              · -- PARTIAL with positive quantity: the mutation itself.
                have hpm := partial_mutation_invariant t.tokenQty t.entryPrice
                  f.filledQty he hq
                split
                · refine ⟨hpm.1, ?_, rfl⟩
                  show max 0 (t.size - min f.filledQty t.tokenQty * t.entryPrice)
                      = max 0 (t.tokenQty - min f.filledQty t.tokenQty) * t.entryPrice
                  rw [hsz]
                  exact hpm.2
                · refine ⟨hpm.1, ?_, rfl⟩
                  show max 0 (t.size - min f.filledQty t.tokenQty * t.entryPrice)
                      = max 0 (t.tokenQty - min f.filledQty t.tokenQty) * t.entryPrice
                  rw [hsz]
                  exact hpm.2
              · split
                · exact ⟨hq, hsz, rfl⟩
                · exact ⟨hq, hsz, rfl⟩

/-- C5 witness: the partial-exit mutation on the concrete `sampleTrade`
(tokenQty 10 at 0.55, size 5.50) keeps the invariant: after the PARTIAL 4 @
0.62 exit the returned trade has tokenQty 6 ≥ 0 and size 3.30 = 6 × 0.55,
with `initialSize` still 5.50. -/
theorem trade_size_invariant_witness :
    ((0:ℚ) ≤ sampleTrade.entryPrice ∧ (0:ℚ) ≤ sampleTrade.tokenQty ∧
     sampleTrade.size = sampleTrade.tokenQty * sampleTrade.entryPrice) ∧
    (0 ≤ (exitPosition sampleState sampleTrade "EDGE_COLLAPSED" (62/100)
            (ExitOutcome.fill ⟨FillStatus.PARTIAL, some (62/100), 4⟩) 60000).2.1.tokenQty ∧
     (exitPosition sampleState sampleTrade "EDGE_COLLAPSED" (62/100)
            (ExitOutcome.fill ⟨FillStatus.PARTIAL, some (62/100), 4⟩) 60000).2.1.size
        = (exitPosition sampleState sampleTrade "EDGE_COLLAPSED" (62/100)
            (ExitOutcome.fill ⟨FillStatus.PARTIAL, some (62/100), 4⟩) 60000).2.1.tokenQty
          * (exitPosition sampleState sampleTrade "EDGE_COLLAPSED" (62/100)
            (ExitOutcome.fill ⟨FillStatus.PARTIAL, some (62/100), 4⟩) 60000).2.1.entryPrice ∧
     (exitPosition sampleState sampleTrade "EDGE_COLLAPSED" (62/100)
            (ExitOutcome.fill ⟨FillStatus.PARTIAL, some (62/100), 4⟩) 60000).2.1.initialSize
        = sampleTrade.initialSize) := by
  refine ⟨⟨by norm_num [sampleTrade], by norm_num [sampleTrade],
           by norm_num [sampleTrade, sampleSignal]⟩, ?_⟩
  exact trade_size_invariant.2.2 sampleState sampleTrade "EDGE_COLLAPSED" (62/100)
    (ExitOutcome.fill ⟨FillStatus.PARTIAL, some (62/100), 4⟩) 60000
    (by norm_num [sampleTrade]) (by norm_num [sampleTrade])
    (by norm_num [sampleTrade, sampleSignal])

-- ─── C8 ───────────────────────────────────────────────────────────────────

/-- C8.  `Strategy._evaluate` emits no signal when any suppression guard
fails, for EVERY downstream signal-generation continuation `rest`:
(1) during the startup window (`marketSetCount ≤ 1`), regardless of where
`marketWindowStart` lies; (2) before the window opens (`now <
marketWindowStart`); (3) while no strike has been captured
(`marketOpenStrike` unset); (4) during the last 60 s before expiry
(`hoursToExpiry < 1/60` since `msRemaining < 60000`): in all four cases the
signal callback can never be invoked. -/
theorem strategy_suppression_guards (st : StrategyState) (now endOfDayMs : ℕ)
    (rest : ℚ → Option Signal) :
    (st.marketSetCount ≤ 1 →
      evaluateGuarded st now endOfDayMs rest = none) ∧
    (∀ w, st.marketWindowStart = some w → w ≠ 0 → now < w →
      evaluateGuarded st now endOfDayMs rest = none) ∧
    (st.marketOpenStrike = none →
      evaluateGuarded st now endOfDayMs rest = none) ∧
    (∀ e, st.marketEndDate = some e → ((e : ℚ) - (now : ℚ)) < 60000 →
      evaluateGuarded st now endOfDayMs rest = none) := by
  refine ⟨?_, ?_, ?_, ?_⟩
  · intro hcount
    unfold evaluateGuarded
    cases hsp : st.spotPrice with
    | none => rfl
    | some sp =>
      cases hcm : st.contractMid with
      | none => rfl
      | some cm =>
        simp [hcount]
  · intro w hw hw0 hnoww
    unfold evaluateGuarded
    cases st.spotPrice with
    | none => rfl
    | some sp =>
      cases st.contractMid with
      | none => rfl
      | some cm =>
        rw [hw]
        simp [hw0, hnoww]
  · intro hstrike
    unfold evaluateGuarded
    cases st.spotPrice with
    | none => rfl
    | some sp =>
      cases st.contractMid with
      | none => rfl
      | some cm =>
        rw [hstrike]
        simp
  · intro e he hlt
    unfold evaluateGuarded
    cases st.spotPrice with
    | none => rfl
    | some sp =>
      cases st.contractMid with
      | none => rfl
      | some cm =>
        have hh : estimateHoursToExpiry st now endOfDayMs < 1/60 := by
          unfold estimateHoursToExpiry
          rw [he]
          have h1 : ((e : ℚ) - (now : ℚ)) / 3600000 < 1/60 := by
            rw [div_lt_iff₀ (by norm_num : (0:ℚ) < 3600000)]
            calc ((e : ℚ) - (now : ℚ)) < 60000 := hlt
            _ = 1/60 * 3600000 := by norm_num
          exact max_lt h1 (by norm_num)
        cases hso : st.marketOpenStrike with
        | none => simp
        | some k =>
            simp [hso, hh]
            intro _ _ _ _ _ habs
            rw [inv_eq_one_div] at habs
            exact absurd hh (not_lt.mpr habs)

/-- A Strategy state inside the startup window: one `setMarket` so far,
`marketWindowStart` already in the past, strike captured, both feeds set —
only the startup suppression applies. -/
def startupStrategyState : StrategyState :=
  { spotPrice := some 50000
    contractMid := some (11/20)
    marketSetCount := 1
    marketWindowStart := some 1000
    marketOpenStrike := some 50000
    marketEndDate := some 301000 }

/-- C8 witness: on the concrete startup-window state (window start in the
past, everything else ready) with a continuation that would always emit a
signal, `_evaluate` still emits nothing. -/
theorem strategy_suppression_guards_witness :
    startupStrategyState.marketSetCount ≤ 1 ∧
    evaluateGuarded startupStrategyState 2000 86400000
        (fun _ => some sampleSignal) = none := by
  refine ⟨by decide, ?_⟩
  exact (strategy_suppression_guards startupStrategyState 2000 86400000
    (fun _ => some sampleSignal)).1 (by decide)

-- ─── C7 ───────────────────────────────────────────────────────────────────

/-- Deleting one id from the (spec-modelled) risk ledger preserves every
entry with a different key. -/
theorem closePosition_mem_preserved (r : RiskState) (id : String) (pnl : ℚ)
    (p : String × RiskPos) (hp : p ∈ r.openPositions) (hne : p.1 ≠ id) :
    p ∈ (r.closePosition id pnl).openPositions := by
  unfold RiskState.closePosition
  cases r.openPositions.lookup id with
  | none => exact hp
  | some pos =>
      simp only [List.mem_filter]
      exact ⟨hp, by simpa using hne⟩

/-- Folding the finalize-at-mark step preserves every risk entry whose key
is none of the folded trades' ids. -/
theorem foldl_closeAtMark_risk_mem (reason : String) (now : ℕ) :
    ∀ (M : List Trade) (s : ExecState) (p : String × RiskPos),
      p ∈ s.risk.openPositions → (∀ t ∈ M, p.1 ≠ t.id) →
      p ∈ (M.foldl (closeAtMarkStep reason now) s).risk.openPositions := by
  intro M
  induction M with
  | nil => intro s p hp _; exact hp
  | cons t M ih =>
      intro s p hp hne
      rw [List.foldl_cons]
      refine ih _ p ?_ (fun u hu => hne u (List.mem_cons_of_mem t hu))
      exact closePosition_mem_preserved s.risk t.id _ p hp
        (hne t (List.mem_cons_self t M))

/-- C7.  `cancelOrdersForLabel(label)` finalizes (reason ROTATION_CANCEL)
exactly the open trades whose `signal.label` equals `label`: afterwards
`openOrders` is precisely the non-matching trades, unchanged; every close
record it appends carries reason ROTATION_CANCEL and the label `label`
(so every trade closed by rotation matched the label, Q6); and every risk
`openPositions` entry not keyed by a matching trade's id survives
untouched.  Distinct trade ids (a JS `Map` invariant) are assumed. -/
theorem cancelOrdersForLabel_exact (s : ExecState) (label : String) (now : ℕ)
    (hnodup : (s.openOrders.map Trade.id).Nodup) :
    (cancelOrdersForLabel s label now).openOrders
        = s.openOrders.filter (fun t => t.signal.label ≠ label) ∧
    (∀ r ∈ (cancelOrdersForLabel s label now).closeLog,
        r ∈ s.closeLog ∨ (r.reason = "ROTATION_CANCEL" ∧ r.label = label)) ∧
    (∀ p ∈ s.risk.openPositions,
        (∀ t ∈ s.openOrders, t.signal.label = label → t.id ≠ p.1) →
        p ∈ (cancelOrdersForLabel s label now).risk.openPositions) := by
  unfold cancelOrdersForLabel
  by_cases hM : (s.openOrders.filter (fun t => t.signal.label = label)).isEmpty
  · simp only [hM, ite_true, if_pos]
    have hnone := List.isEmpty_iff.mp hM
    have hall : ∀ t ∈ s.openOrders, ¬ (t.signal.label = label) := by
      intro t ht hlab
      have : t ∈ s.openOrders.filter (fun t => t.signal.label = label) :=
        List.mem_filter.mpr ⟨ht, by simpa using hlab⟩
      rw [hnone] at this
      exact absurd this (List.not_mem_nil t)
    refine ⟨?_, fun r hr => Or.inl hr, fun p hp _ => hp⟩
    exact (List.filter_eq_self.mpr (fun t ht => by simpa using hall t ht)).symm
  · simp only [hM, ite_false, if_neg, Bool.false_eq_true, not_false_eq_true]
    refine ⟨?_, ?_, ?_⟩
    · rw [foldl_closeAtMark_openOrders]
      refine List.filter_congr ?_
      intro x hx
      by_cases hxl : x.signal.label = label
      · have hxM : x ∈ s.openOrders.filter (fun t => t.signal.label = label) :=
          List.mem_filter.mpr ⟨hx, by simpa using hxl⟩
        have hfalse : (s.openOrders.filter (fun t => t.signal.label = label)).all
            (fun t => decide (x.id ≠ t.id)) = false := by
          rw [Bool.eq_false_iff]
          intro hall
          have := List.all_eq_true.mp hall x hxM
          simp at this
        rw [hfalse, hxl]
        simp
      · have htrue : (s.openOrders.filter (fun t => t.signal.label = label)).all
            (fun t => decide (x.id ≠ t.id)) = true := by
          rw [List.all_eq_true]
          intro t htM
          rcases List.mem_filter.mp htM with ⟨ht, hlab⟩
          have hlab' : t.signal.label = label := by simpa using hlab
          simp only [decide_eq_true_eq]
          intro hid
          exact hxl (List.inj_on_of_nodup_map hnodup hx ht hid ▸ hlab')
        rw [htrue]
        simp [hxl]
    · intro r hr
      rw [foldl_closeAtMark_closeLog, List.mem_append] at hr
      rcases hr with hl | hm
      · exact Or.inl hl
      · rcases List.mem_map.mp hm with ⟨t, htM, rfl⟩
        rcases List.mem_filter.mp htM with ⟨_, hlab⟩
        exact Or.inr ⟨rfl, by simpa using hlab⟩
    · intro p hp hfree
      refine foldl_closeAtMark_risk_mem "ROTATION_CANCEL" now _ s p hp ?_
      intro t htM
      rcases List.mem_filter.mp htM with ⟨ht, hlab⟩
      exact fun h => hfree t ht (by simpa using hlab) h.symm

/-- Two-market fixture: a second open trade on another market (ETH/5m). -/
def ethTrade : Trade :=
  { sampleTrade with
      id := "eth-trade"
      signal := { sampleSignal with label := "ETH/5m", tokenId := "token-eth" } }

/-- Executor state with one BTC/5m and one ETH/5m trade and their two risk
entries. -/
def twoMarketState : ExecState :=
  { sampleState with
      openOrders := [sampleTrade, ethTrade]
      risk := { sampleRisk with openPositions :=
        [("trade-1", { side := Direction.BUY_YES, size := 11/2, entryPrice := 11/20 }),
         ("eth-trade", { side := Direction.BUY_YES, size := 11/2, entryPrice := 11/20 })] } }

/-- C7 witness: cancelling label BTC/5m in the two-market state removes
exactly the BTC trade from `openOrders` (the ETH trade survives verbatim)
and keeps the ETH risk entry. -/
theorem cancelOrdersForLabel_exact_witness :
    (twoMarketState.openOrders.map Trade.id).Nodup ∧
    (cancelOrdersForLabel twoMarketState "BTC/5m" 60000).openOrders
        = twoMarketState.openOrders.filter (fun t => t.signal.label ≠ "BTC/5m") ∧
    ("eth-trade", ({ side := Direction.BUY_YES, size := 11/2, entryPrice := 11/20 } : RiskPos))
        ∈ (cancelOrdersForLabel twoMarketState "BTC/5m" 60000).risk.openPositions := by
  have hnodup : (twoMarketState.openOrders.map Trade.id).Nodup := by
    simp [twoMarketState, sampleState, sampleTrade, ethTrade, sampleSignal]
  have h := cancelOrdersForLabel_exact twoMarketState "BTC/5m" 60000 hnodup
  refine ⟨hnodup, h.1, ?_⟩
  refine h.2.2 _ ?_ ?_
  · simp [twoMarketState, sampleState, sampleRisk]
  · intro t ht hlab
    simp only [twoMarketState, sampleState, List.mem_cons, List.mem_singleton,
      List.not_mem_nil, or_false] at ht
    rcases ht with rfl | rfl
    · simp [sampleTrade]
    · simp [ethTrade, sampleSignal, sampleTrade] at hlab

end LatencyArb
